import Mathlib

/-!
Verification development for the XMRT.io coordination repository.

Shallow embedding of the two stateful services:
* `server/services/circular-feedback-system.ts` — the feedback cycle
  scheduler (`CircularFeedbackSystem`): cycle records, scoring, metrics and
  the opportunity-to-service converter;
* the 3-pillar coordination service (`XMRTCoordinationService`): pillar
  registry, health monitor, message exchange and activity buffers.

JS `Date` values become `Nat` timestamps, JS numbers that only ever hold
counts become `Nat`, statuses become inductive enums, and the collaborator
side effects (network, RNG, storage) are passed in explicitly so every
definition is an executable function of its inputs.
-/

namespace XMRT

/-! ## Data model: circular-feedback-system.ts -/

/-- Status field `'active' | 'completed' | 'failed'` of a `FeedbackCycle`. -/
inductive CycleStatus
  | active
  | completed
  | failed
deriving DecidableEq, Repr

/-- The `FeedbackCycle` interface (circular-feedback-system.ts lines 4-14).
`id` is the `cycle-${Date.now()}` key, kept as the numeric timestamp. -/
structure FeedbackCycle where
  id : Nat
  cycleNumber : Nat
  startTime : Nat
  endTime : Option Nat
  repositoriesCreated : List String
  commitsGenerated : Nat
  newOpportunitiesDetected : Nat
  feedbackScore : Nat
  status : CycleStatus
deriving DecidableEq, Repr

/-- The `RepositoryActivity` interface (lines 16-22). -/
structure RepositoryActivity where
  repoName : String
  commitHash : String
  filesAdded : List String
  linesOfCode : Nat
  timestamp : Nat
deriving DecidableEq, Repr

/-- Mutable fields of the `CircularFeedbackSystem` class (lines 25-28).
`activeCycles` is a `Map` keyed by the fresh `cycle-${Date.now()}` id;
since every insertion uses a fresh key, the map is modelled as the
insertion-ordered list of its values. -/
structure CFSState where
  activeCycles : List FeedbackCycle
  repositoryActivities : List RepositoryActivity
  isRunning : Bool
deriving DecidableEq, Repr

/-- Function `calculateFeedbackScore` (lines 424-440), translated term by term:
`Math.min(repos*10, 40) + Math.min(commits*5, 30) + Math.min(opps*5, 20)`,
plus 10 when `cycle.status === 'completed'`, the total capped at 100. -/
def calculateFeedbackScore (cycle : FeedbackCycle) : Nat :=
  let score := 0
  let score := score + min (cycle.repositoriesCreated.length * 10) 40
  let score := score + min (cycle.commitsGenerated * 5) 30
  let score := score + min (cycle.newOpportunitiesDetected * 5) 20
  let score := if cycle.status == CycleStatus.completed then score + 10 else score
  min score 100

/-- Lines 59-71 of `executeFeedbackCycle`: build the fresh cycle record
(`cycleNumber = activeCycles.size + 1`, `status = 'active'`, the other
fields zeroed) and insert it into `activeCycles`.  This is the state the
map is in while the cycle's phases are still running. -/
def beginCycle (st : CFSState) (now : Nat) : CFSState × FeedbackCycle :=
  let cycle : FeedbackCycle :=
    { id := now
      cycleNumber := st.activeCycles.length + 1
      startTime := now
      endTime := none
      repositoriesCreated := []
      commitsGenerated := 0
      newOpportunitiesDetected := 0
      feedbackScore := 0
      status := CycleStatus.active }
  ({ st with activeCycles := st.activeCycles ++ [cycle] }, cycle)

/-- Function `executeFeedbackCycle` (lines 58-116).  The results of phases 1-4
(detected opportunities, created repository URLs, generated commit count)
come from collaborators and randomness, so they are injected as
`phases`; `Except.error` is a collaborator throwing during phases 1-4.
On success the code sets `newOpportunitiesDetected`, `repositoriesCreated`
and `commitsGenerated`, then computes `feedbackScore` (line 93) and only
afterwards sets `endTime` and `status = 'completed'` (lines 95-96), so the
score is computed while `status` is still `'active'`.  On a throw the
catch block (lines 110-115) marks the cycle `'failed'`, sets `endTime`,
logs, and rethrows (the `Except.error` result).  The cycle object inserted
at line 71 is mutated in place, so the end-of-call map equals the initial
map with the final cycle record appended. -/
def executeFeedbackCycle (st : CFSState) (now : Nat)
    (phases : Except String (List String × List String × Nat))
    (endT : Nat) : CFSState × Except String FeedbackCycle :=
  let base := (beginCycle st now).2
  match phases with
  | Except.error e =>
      let failed := { base with status := CycleStatus.failed, endTime := some endT }
      ({ st with activeCycles := st.activeCycles ++ [failed] }, Except.error e)
  | Except.ok (opps, repos, commits) =>
      let c := { base with
                  newOpportunitiesDetected := opps.length
                  repositoriesCreated := repos
                  commitsGenerated := commits }
      let c := { c with feedbackScore := calculateFeedbackScore c }
      let c := { c with endTime := some endT, status := CycleStatus.completed }
      ({ st with activeCycles := st.activeCycles ++ [c] }, Except.ok c)

/-- Function `start` (lines 30-47): returns immediately when `isRunning` is already
set; otherwise sets the flag and runs an immediate cycle (the interval it
also installs just repeats `executeFeedbackCycle`). -/
def start (st : CFSState) (now : Nat)
    (phases : Except String (List String × List String × Nat))
    (endT : Nat) : CFSState :=
  if st.isRunning then st
  else (executeFeedbackCycle { st with isRunning := true } now phases endT).1

/-- The push at lines 183-189: `this.repositoryActivities.push(...)` —
note there is no cap on this array anywhere in the class. -/
def recordRepositoryActivity (buf : List RepositoryActivity)
    (a : RepositoryActivity) : List RepositoryActivity :=
  buf ++ [a]

/-- Function `getRepositoryActivities` (lines 472-474): `slice(-20)`, the last 20
entries of the unbounded store. -/
def getRepositoryActivities (buf : List RepositoryActivity) : List RepositoryActivity :=
  buf.drop (buf.length - 20)

/-- Result record of `getSystemMetrics` (lines 476-482).  The average is a
JS float division; it is embedded as an exact rational. -/
structure SystemMetrics where
  totalCycles : Nat
  totalRepositories : Nat
  totalCommits : Nat
  averageFeedbackScore : ℚ
  isActive : Bool
deriving DecidableEq, Repr

/-- Function `getSystemMetrics` (lines 476-495): totals over all recorded cycles,
average feedback score over the completed ones only, guarded by
`completedCycles.length > 0` (otherwise `0`). -/
def getSystemMetrics (st : CFSState) : SystemMetrics :=
  let cycles := st.activeCycles
  let completedCycles := cycles.filter (fun c => c.status == CycleStatus.completed)
  { totalCycles := cycles.length
    totalRepositories := (cycles.map (fun c => c.repositoriesCreated.length)).sum
    totalCommits := (cycles.map (fun c => c.commitsGenerated)).sum
    averageFeedbackScore :=
      if 0 < completedCycles.length then
        ((completedCycles.map (fun c => (c.feedbackScore : ℚ))).sum)
          / (completedCycles.length : ℚ)
      else 0
    isActive := st.isRunning }

/-- A fresh running system: no cycles yet, scheduler flag set. -/
def freshCFS : CFSState :=
  { activeCycles := [], repositoryActivities := [], isRunning := true }

/-! ## Data model: the 3-pillar coordination service -/

/-- Status field `'online' | 'offline' | 'degraded'` of an `XMRTPillar`. -/
inductive PillarStatus
  | online
  | offline
  | degraded
deriving DecidableEq, Repr

/-- The `XMRTPillar` interface (coordination service lines 5-11). -/
structure Pillar where
  name : String
  url : String
  status : PillarStatus
  lastSync : Nat
  features : List String
deriving DecidableEq, Repr

/-- The `type` field of a `CrossPillarMessage` (lines 13-20). -/
inductive MessageKind
  | discussion
  | system_activity
  | mining_data
  | dao_proposal
  | ecosystem_update
deriving DecidableEq, Repr

/-- The `CrossPillarMessage` interface (lines 13-20); the
`msg-${Date.now()}-${random}` id is kept as the numeric timestamp. -/
structure CrossPillarMessage where
  id : Nat
  source : String
  target : String
  kind : MessageKind
  data : String
  timestamp : Nat
deriving DecidableEq, Repr

/-- The `SystemActivity` interface (lines 22-28). -/
inductive Impact
  | high
  | medium
  | low
deriving DecidableEq, Repr

/-- One entry of the system-activity buffer. -/
structure SystemActivity where
  pillar : String
  activity : String
  timestamp : Nat
  impact : Impact
  data : String
deriving DecidableEq, Repr

/-- The `slice(-cap)` retention step used by both bounded buffers: the
code appends and then, when `length > cap`, keeps only the last `cap`
entries. -/
def capLast (cap : Nat) (l : List α) : List α :=
  if l.length > cap then l.drop (l.length - cap) else l

/-- The message constructed inside `sendToPillar` (lines 199-206):
`source` is always the literal `'coordination-service'`. -/
def mkCrossPillarMessage (target : String) (kind : MessageKind)
    (payload : String) (now : Nat) : CrossPillarMessage :=
  { id := now
    source := "coordination-service"
    target := target
    kind := kind
    data := payload
    timestamp := now }

/-- The delivery guard of `sendToPillar` line 197 as a boolean:
the target pillar exists in the registry and its status is `'online'`. -/
def targetOnline (pillars : List (String × Pillar)) (target : String) : Bool :=
  match pillars.lookup target with
  | some p => p.status == PillarStatus.online
  | none => false

/-- Function `sendToPillar` (lines 194-220): look the target up in the pillar map;
`if (!pillar || pillar.status !== 'online') return;` drops the message
(no retry anywhere); otherwise the constructed message is pushed onto
`activeDiscussions`, which is then trimmed to its last 50 entries. -/
def sendToPillar (pillars : List (String × Pillar)) (buf : List CrossPillarMessage)
    (target : String) (kind : MessageKind) (payload : String) (now : Nat) :
    List CrossPillarMessage :=
  match pillars.lookup target with
  | none => buf
  | some p =>
      if p.status != PillarStatus.online then buf
      else capLast 50 (buf ++ [mkCrossPillarMessage target kind payload now])

/-- The buffer update of `generateSystemActivity` (lines 254-261): push
the selected activity, then trim to the last 100 entries. -/
def generateSystemActivity (buf : List SystemActivity) (a : SystemActivity) :
    List SystemActivity :=
  capLast 100 (buf ++ [a])

/-- One pillar's health probe inside `checkAllPillarsHealth`
(lines 102-122).  The `fetch` with its 5-second `AbortSignal.timeout`
either throws — timeout, connection failure or any other exception,
modelled as `none` and caught by the per-pillar catch — or returns an
HTTP status code.  `response.ok` means a 2xx code. -/
def checkPillarHealth (p : Pillar) (response : Option Nat) (now : Nat) : Pillar :=
  match response with
  | some code =>
      if 200 ≤ code ∧ code < 300 then
        { p with status := PillarStatus.online, lastSync := now }
      else
        { p with status := PillarStatus.degraded }
  | none => { p with status := PillarStatus.offline }

/-- Function `checkAllPillarsHealth` (lines 99-124): probe every registered pillar
in turn (the per-pillar endpoint path only shapes the URL, so the probe
outcome is keyed by the pillar's registry key); every failure is absorbed
into that pillar's status by the catch inside the loop, so the function
is total and never skips a pillar. -/
def checkAllPillarsHealth (pillars : List (String × Pillar))
    (response : String → Option Nat) (now : Nat) : List (String × Pillar) :=
  pillars.map (fun kp => (kp.1, checkPillarHealth kp.2 (response kp.1) now))

/-! ## Data model: opportunities, services and the converter -/

/-- The `Opportunity` entity owned by the storage collaborator, with the
fields the converter reads (`status` is the raw string the code compares
with `'detected'` and overwrites with `'converted'`). -/
structure Opportunity where
  id : Nat
  title : String
  description : String
  estimatedValue : Nat
  confidence : Nat
  status : String
deriving DecidableEq, Repr

/-- The `serviceData` record built by `autoConvertOpportunitiesToServices`
(lines 513-521). -/
structure Service where
  title : String
  description : String
  price : Nat
  status : String
  opportunityId : Nat
  template : String
  automationLevel : String
deriving DecidableEq, Repr

/-- Sequence containment on character lists, standing in for the JS
`String.includes` used with the non-empty needles below. -/
def segIn [BEq α] (pat : List α) : List α → Bool
  | [] => pat.isEmpty
  | a :: rest => List.isPrefixOf pat (a :: rest) || segIn pat rest

/-- Boolean `title.toLowerCase().includes(pat)` for a lowercase needle. -/
def titleIncludes (title pat : String) : Bool :=
  segIn pat.toList title.toLower.toList

/-- Function `calculateAutomationLevel` (lines 567-577): base 50, +20 when
`estimatedValue > 10000`, +15 when `confidence > 90`, +25 when the
lowercased title contains `"automation"`, +20 when it contains `"ai"`,
capped at 100. -/
def calculateAutomationLevel (o : Opportunity) : Nat :=
  let a := 50
  let a := if o.estimatedValue > 10000 then a + 20 else a
  let a := if o.confidence > 90 then a + 15 else a
  let a := if titleIncludes o.title ("automation") then a + 25 else a
  let a := if titleIncludes o.title ("ai") then a + 20 else a
  min 100 a

/-- Function `generateServiceTemplate` (lines 612-640), the literal markdown
template; the locale formatting of `estimatedValue.toLocaleString()` is
rendered with plain `toString`. -/
def generateServiceTemplate (o : Opportunity) : String :=
  "# " ++ o.title ++
  "\n\n## Overview\n" ++ o.description ++
  "\n\n## Estimated Value\n$" ++ toString o.estimatedValue ++
  "\n\n## Implementation Approach\n" ++
  "- Comprehensive requirement analysis\n" ++
  "- Agile development methodology  \n" ++
  "- Regular progress updates\n" ++
  "- Quality assurance testing\n" ++
  "- Deployment and maintenance\n" ++
  "\n## Deliverables\n" ++
  "- Complete implementation\n" ++
  "- Documentation and training\n" ++
  "- Support and maintenance\n" ++
  "- Performance optimization\n" ++
  "\n## Success Metrics\n" ++
  "- Functionality meets specifications\n" ++
  "- Performance targets achieved\n" ++
  "- User satisfaction > 90%\n" ++
  "- ROI within projected timeframe\n"

/-- The `serviceData` built from one detected opportunity
(lines 513-521): title and description copied, `price` is the estimated
value, `status: 'active'`, and the computed template and automation
level. -/
def serviceDataFor (o : Opportunity) : Service :=
  { title := o.title
    description := o.description
    price := o.estimatedValue
    status := "active"
    opportunityId := o.id
    template := generateServiceTemplate o
    automationLevel := toString (calculateAutomationLevel o) }

/-- Modelled from the spec: the persistent storage collaborator
(`server/storage.ts`, not part of the sources here) is, per spec
sections 1 and 6, a CRUD surface `getOpportunities / createService /
updateOpportunity` over opportunities and services.  It is embedded as
explicit state. -/
structure Storage where
  opportunities : List Opportunity
  services : List Service
deriving DecidableEq, Repr

/-- Modelled from the spec: which storage writes fail.  The spec's
`PersistenceFailure` ("storage write fails") is injected per opportunity
id for each of the two writes the converter performs. -/
structure StorageFaults where
  createServiceFails : Nat → Bool
  updateOpportunityFails : Nat → Bool

/-- The fault-free storage collaborator. -/
def noFaults : StorageFaults :=
  { createServiceFails := fun _ => false, updateOpportunityFails := fun _ => false }

/-- Modelled from the spec: `storage.createService(serviceData)` —
appends the record, or fails (`none`) when the write faults. -/
def createService (fx : StorageFaults) (st : Storage) (s : Service) : Option Storage :=
  if fx.createServiceFails s.opportunityId then none
  else some { st with services := st.services ++ [s] }

/-- Modelled from the spec: `storage.updateOpportunity(id, patch)` with
the patch `{...opportunity, status: 'converted'}` the converter sends
(lines 527-530) — replaces the stored record with that id, or fails. -/
def updateOpportunityConverted (fx : StorageFaults) (st : Storage)
    (o : Opportunity) : Option Storage :=
  if fx.updateOpportunityFails o.id then none
  else some { st with
    opportunities := st.opportunities.map
      (fun p => if p.id == o.id then { o with status := "converted" } else p) }

/-- The `for` loop of `autoConvertOpportunitiesToServices`
(lines 507-535) over the snapshot returned by `getOpportunities`:
each opportunity still in `'detected'` state gets its service persisted
and then its status flipped.  The `try` wraps the whole loop, so a
failing write aborts the remaining iterations; the state reached so far
and the caught error are returned. -/
def convertLoop (fx : StorageFaults) : List Opportunity → Storage → Storage × Option String
  | [], st => (st, none)
  | o :: rest, st =>
      if o.status == "detected" then
        match createService fx st (serviceDataFor o) with
        | none => (st, some ("createService failed"))
        | some st1 =>
            match updateOpportunityConverted fx st1 o with
            | none => (st1, some ("updateOpportunity failed"))
            | some st2 => convertLoop fx rest st2
      else convertLoop fx rest st

/-- Function `autoConvertOpportunitiesToServices` (lines 498-542): snapshot the
opportunities, run the conversion loop, and absorb any caught error
(the catch block only logs), leaving storage as the loop left it. -/
def autoConvertOpportunitiesToServices (fx : StorageFaults) (st : Storage) : Storage :=
  (convertLoop fx st.opportunities st).1

/-- The status rewrite one pass applies to an opportunity record. -/
def convertIfDetected (o : Opportunity) : Opportunity :=
  if o.status == "detected" then { o with status := "converted" } else o

/-! ## Concrete fixtures used by witnesses and counterexamples -/

/-- A repository-activity record with timestamp `i`. -/
def repoAct (i : Nat) : RepositoryActivity :=
  { repoName := "r", commitHash := "c", filesAdded := [], linesOfCode := 0, timestamp := i }

/-- An online hub pillar. -/
def hubOnline : Pillar :=
  { name := "XMRT.io Hub", url := "https://hub.example/", status := PillarStatus.online,
    lastSync := 0, features := ["ai-boardroom"] }

/-- An offline dao pillar. -/
def daoOffline : Pillar :=
  { name := "XMRT-DAO-Ecosystem", url := "https://dao.example/",
    status := PillarStatus.offline, lastSync := 0, features := ["mining-operations"] }

/-- A two-pillar registry: `hub` online, `dao` offline. -/
def demoPillars : List (String × Pillar) :=
  [("hub", hubOnline), ("dao", daoOffline)]

/-- A sample system activity from the catalog. -/
def demoActivity : SystemActivity :=
  { pillar := "hub", activity := "AI agents coordinating autonomous business opportunities",
    timestamp := 0, impact := Impact.high, data := "agents" }

/-- A detected opportunity (triggers the `ai` and `automation` and both
threshold bonuses of the automation-level formula). -/
def oppDetectedW : Opportunity :=
  { id := 1, title := "AI automation dashboard", description := "dash",
    estimatedValue := 12000, confidence := 95, status := "detected" }

/-- An already converted opportunity. -/
def oppConvertedW : Opportunity :=
  { id := 2, title := "Other", description := "x",
    estimatedValue := 100, confidence := 10, status := "converted" }

/-- Storage holding one detected and one converted opportunity. -/
def storageW : Storage :=
  { opportunities := [oppDetectedW, oppConvertedW], services := [] }

/-- First detected opportunity of the failure scenarios. -/
def oppAlpha : Opportunity :=
  { id := 1, title := "Alpha", description := "a",
    estimatedValue := 5000, confidence := 50, status := "detected" }

/-- Second detected opportunity of the failure scenarios. -/
def oppBeta : Opportunity :=
  { id := 2, title := "Beta", description := "b",
    estimatedValue := 6000, confidence := 60, status := "detected" }

/-- Third detected opportunity of the failure scenarios. -/
def oppGamma : Opportunity :=
  { id := 3, title := "Gamma", description := "g",
    estimatedValue := 7000, confidence := 70, status := "detected" }

/-- Storage faults: `createService` fails for opportunity id 1. -/
def failCreateAlpha : StorageFaults :=
  { createServiceFails := fun i => i == 1, updateOpportunityFails := fun _ => false }

/-- Storage faults: `createService` fails for opportunity id 2. -/
def failCreateBeta : StorageFaults :=
  { createServiceFails := fun i => i == 2, updateOpportunityFails := fun _ => false }

/-- Storage faults: `updateOpportunity` fails for opportunity id 2 while
every `createService` succeeds. -/
def failUpdateBeta : StorageFaults :=
  { createServiceFails := fun _ => false, updateOpportunityFails := fun i => i == 2 }

/-- A completed cycle with score 80. -/
def cycleCompleted80 : FeedbackCycle :=
  { id := 1, cycleNumber := 1, startTime := 0, endTime := some 5,
    repositoriesCreated := ["https://github.example/r1"], commitsGenerated := 3,
    newOpportunitiesDetected := 2, feedbackScore := 80, status := CycleStatus.completed }

/-- A completed cycle with score 90. -/
def cycleCompleted90 : FeedbackCycle :=
  { id := 2, cycleNumber := 2, startTime := 6, endTime := some 9,
    repositoriesCreated := [], commitsGenerated := 5,
    newOpportunitiesDetected := 3, feedbackScore := 90, status := CycleStatus.completed }

/-- A failed cycle. -/
def cycleFailedW : FeedbackCycle :=
  { id := 3, cycleNumber := 3, startTime := 10, endTime := some 11,
    repositoriesCreated := [], commitsGenerated := 0,
    newOpportunitiesDetected := 1, feedbackScore := 0, status := CycleStatus.failed }

/-- A state whose only recorded cycle failed: no completed cycles. -/
def metricsStateA : CFSState :=
  { activeCycles := [cycleFailedW], repositoryActivities := [], isRunning := true }

/-- A state with two completed cycles and a failed one. -/
def metricsStateB : CFSState :=
  { activeCycles := [cycleCompleted80, cycleFailedW, cycleCompleted90],
    repositoryActivities := [], isRunning := true }

/-! ## Theorems -/

/-- C3: for every cycle record, whatever its counts and status, the
computed feedback score is an integer in the closed interval [0, 100]. -/
theorem calculateFeedbackScore_in_range (cycle : FeedbackCycle) :
    (0 : ℤ) ≤ (calculateFeedbackScore cycle : ℤ) ∧
      (calculateFeedbackScore cycle : ℤ) ≤ 100 := by
  constructor
  · exact_mod_cast Nat.zero_le _
  · have h : calculateFeedbackScore cycle ≤ 100 := by
      unfold calculateFeedbackScore
      exact Nat.min_le_right _ _
    exact_mod_cast h

/-- C2 (code bug): the completion bonus is never part of a recorded
score.  `calculateFeedbackScore` is invoked at line 93 while
`cycle.status` is still `'active'`; `status = 'completed'` is only
assigned at line 96, after the score is stored.  A cycle completing with
zero counts therefore records score 0, while the claimed formula — and
`calculateFeedbackScore` itself applied to the final, completed record —
gives `min 100 (0 + 0 + 0 + 10) = 10`. -/
theorem completed_cycle_score_misses_bonus :
    (executeFeedbackCycle freshCFS 0 (Except.ok ([], [], 0)) 1).2
      = Except.ok
          { id := 0, cycleNumber := 1, startTime := 0, endTime := some 1,
            repositoriesCreated := [], commitsGenerated := 0,
            newOpportunitiesDetected := 0, feedbackScore := 0,
            status := CycleStatus.completed } ∧
    calculateFeedbackScore
          { id := 0, cycleNumber := 1, startTime := 0, endTime := some 1,
            repositoriesCreated := [], commitsGenerated := 0,
            newOpportunitiesDetected := 0, feedbackScore := 0,
            status := CycleStatus.completed } = 10 ∧
    min 100 (10 * min 0 4 + 5 * min 0 6 + 5 * min 0 4 + 10) = 10 := by
  exact ⟨rfl, by decide, by decide⟩

/-- C1 (counterexample): `executeFeedbackCycle` has no guard against an
already-active cycle.  Starting from a fresh system, the insertion
performed by a first tick (lines 59-71) leaves one cycle with status
`'active'`; a second tick fired at that instant inserts another one:
the recorded-cycle count increases from 1 to 2 and two cycles are
simultaneously `'active'`, refuting both halves of the claim. -/
theorem double_tick_two_active_cycles :
    (beginCycle freshCFS 0).1.activeCycles.length = 1 ∧
    ((beginCycle (beginCycle freshCFS 0).1 1).1.activeCycles.filter
        (fun c => c.status == CycleStatus.active)).length = 2 ∧
    (beginCycle (beginCycle freshCFS 0).1 1).1.activeCycles.length = 2 := by
  decide

/-- C1 (amended): every tick unconditionally records exactly one new
cycle, created with status `'active'`, whatever the current state — so
the cycle count always grows by one and a tick fired while a cycle is
active is not a no-op.  Existing cycle records are left unchanged by the
insertion, and only `start` is guarded: when `isRunning` is already set
it returns without doing anything. -/
theorem tick_unconditionally_records_cycle (st : CFSState) (now : Nat) :
    (beginCycle st now).1.activeCycles = st.activeCycles ++ [(beginCycle st now).2] ∧
    (beginCycle st now).2.status = CycleStatus.active ∧
    (∀ phases endT, ∃ c,
        (executeFeedbackCycle st now phases endT).1.activeCycles
          = st.activeCycles ++ [c] ∧
        (executeFeedbackCycle st now phases endT).1.activeCycles.length
          = st.activeCycles.length + 1) ∧
    (st.isRunning = true → ∀ phases endT, start st now phases endT = st) := by
  refine ⟨rfl, rfl, ?_, ?_⟩
  · intro phases endT
    match phases with
    | Except.error e => exact ⟨_, rfl, by simp [executeFeedbackCycle]⟩
    | Except.ok (opps, repos, commits) => exact ⟨_, rfl, by simp [executeFeedbackCycle]⟩
  · intro h phases endT
    simp [start, h]

/-- Witness for the amended C1 statement at a concrete running state. -/
theorem tick_unconditionally_records_cycle_witness :
    freshCFS.isRunning = true ∧ start freshCFS 0 (Except.ok ([], [], 0)) 1 = freshCFS :=
  ⟨rfl, (tick_unconditionally_records_cycle freshCFS 0).2.2.2 rfl (Except.ok ([], [], 0)) 1⟩

/-- C9: when a phase of a running cycle throws, the catch block records
the cycle as `'failed'` with its end timestamp set, and the error is
rethrown as a value to the tick's caller (the coordinator itself never
aborts: the embedding is total).  The interval is untouched, so the next
tick starts a fresh cycle — here one that runs to completion with the
next sequence number. -/
theorem failed_cycle_handling (st : CFSState) (now endT now2 endT2 : Nat) (e : String)
    (opps repos : List String) (commits : Nat) :
    (executeFeedbackCycle st now (Except.error e) endT).2 = Except.error e ∧
    (∃ c, (executeFeedbackCycle st now (Except.error e) endT).1.activeCycles
            = st.activeCycles ++ [c] ∧
          c.status = CycleStatus.failed ∧ c.endTime = some endT) ∧
    (∃ c2, (executeFeedbackCycle (executeFeedbackCycle st now (Except.error e) endT).1
              now2 (Except.ok (opps, repos, commits)) endT2).1.activeCycles
            = (executeFeedbackCycle st now (Except.error e) endT).1.activeCycles ++ [c2] ∧
           c2.status = CycleStatus.completed ∧
           c2.cycleNumber = st.activeCycles.length + 2) := by
  refine ⟨rfl, ⟨_, rfl, rfl, rfl⟩, ⟨_, rfl, rfl, ?_⟩⟩
  simp [executeFeedbackCycle, beginCycle]

/-- C10: `getSystemMetrics` is a total function (it can neither throw nor
divide by zero — the division is guarded by `completedCycles.length > 0`):
`totalCycles` counts every recorded cycle whatever its status; with no
completed cycle the average is 0; otherwise the average is the exact
arithmetic mean of `feedbackScore` over the completed cycles only, stated
both as the quotient and denominator-free. -/
theorem getSystemMetrics_safe (st : CFSState) :
    (getSystemMetrics st).totalCycles = st.activeCycles.length ∧
    (st.activeCycles.filter (fun c => c.status == CycleStatus.completed) = [] →
      (getSystemMetrics st).averageFeedbackScore = 0) ∧
    (st.activeCycles.filter (fun c => c.status == CycleStatus.completed) ≠ [] →
      (getSystemMetrics st).averageFeedbackScore
        = ((st.activeCycles.filter (fun c => c.status == CycleStatus.completed)).map
            (fun c => (c.feedbackScore : ℚ))).sum
          / ((st.activeCycles.filter (fun c => c.status == CycleStatus.completed)).length : ℚ)) ∧
    (st.activeCycles.filter (fun c => c.status == CycleStatus.completed) ≠ [] →
      (getSystemMetrics st).averageFeedbackScore
        * ((st.activeCycles.filter (fun c => c.status == CycleStatus.completed)).length : ℚ)
        = ((st.activeCycles.filter (fun c => c.status == CycleStatus.completed)).map
            (fun c => (c.feedbackScore : ℚ))).sum) := by
  refine ⟨rfl, ?_, ?_, ?_⟩
  · intro h
    simp [getSystemMetrics, h]
  · intro h
    have hpos : 0 < (st.activeCycles.filter
        (fun c => c.status == CycleStatus.completed)).length :=
      List.length_pos.mpr h
    simp [getSystemMetrics, hpos]
  · intro h
    have hpos : 0 < (st.activeCycles.filter
        (fun c => c.status == CycleStatus.completed)).length :=
      List.length_pos.mpr h
    have hne : ((st.activeCycles.filter
        (fun c => c.status == CycleStatus.completed)).length : ℚ) ≠ 0 := by
      exact_mod_cast Nat.pos_iff_ne_zero.mp hpos
    simp [getSystemMetrics, hpos, div_mul_cancel₀ _ hne]

/-- Witness for C10 at two concrete states: one with no completed cycle
(average 0) and one with completed cycles of scores 80 and 90 (average
85, total 3 cycles counting the failed one). -/
theorem getSystemMetrics_safe_witness :
    (metricsStateA.activeCycles.filter (fun c => c.status == CycleStatus.completed) = [] ∧
      (getSystemMetrics metricsStateA).averageFeedbackScore = 0) ∧
    (metricsStateB.activeCycles.filter (fun c => c.status == CycleStatus.completed) ≠ [] ∧
      (getSystemMetrics metricsStateB).totalCycles = 3 ∧
      (getSystemMetrics metricsStateB).averageFeedbackScore
        * ((metricsStateB.activeCycles.filter
            (fun c => c.status == CycleStatus.completed)).length : ℚ)
        = ((metricsStateB.activeCycles.filter
            (fun c => c.status == CycleStatus.completed)).map
            (fun c => (c.feedbackScore : ℚ))).sum ∧
      (getSystemMetrics metricsStateB).averageFeedbackScore = 85) := by
  refine ⟨⟨by decide, (getSystemMetrics_safe metricsStateA).2.1 (by decide)⟩,
          ⟨by decide, rfl, (getSystemMetrics_safe metricsStateB).2.2.2 (by decide), ?_⟩⟩
  have h := (getSystemMetrics_safe metricsStateB).2.2.1 (by decide)
  have hf : metricsStateB.activeCycles.filter (fun c => c.status == CycleStatus.completed)
      = [cycleCompleted80, cycleCompleted90] := by decide
  rw [h, hf]
  norm_num [cycleCompleted80, cycleCompleted90]

/-- C5: the delivery guard of `sendToPillar`, for every registry, buffer
and message: when the target pillar exists and is `'online'` the
constructed message is appended (within the 50-entry retention cap);
in every other case — target missing, `'offline'` or `'degraded'` — the
buffer is returned untouched, and there is no retry path. -/
theorem sendToPillar_delivery_guard (pillars : List (String × Pillar))
    (buf : List CrossPillarMessage) (target : String) (kind : MessageKind)
    (payload : String) (now : Nat) :
    sendToPillar pillars buf target kind payload now
      = if targetOnline pillars target
        then capLast 50 (buf ++ [mkCrossPillarMessage target kind payload now])
        else buf := by
  unfold sendToPillar targetOnline
  cases h : pillars.lookup target with
  | none => simp
  | some p =>
      cases hs : p.status <;> simp

/-- C8: `checkAllPillarsHealth` never throws (it is a total function:
every per-pillar failure is absorbed by the catch inside the loop) and
processes every registered pillar; for any pillar, whatever its prior
status, a 2xx probe sets `'online'` and refreshes the sync timestamp, a
non-2xx response sets `'degraded'` (timestamp untouched), and a
timeout/connection failure/exception sets `'offline'`. -/
theorem checkAllPillarsHealth_spec (pillars : List (String × Pillar))
    (response : String → Option Nat) (now : Nat) :
    (checkAllPillarsHealth pillars response now).length = pillars.length ∧
    (∀ kp ∈ pillars,
      (kp.1, checkPillarHealth kp.2 (response kp.1) now)
        ∈ checkAllPillarsHealth pillars response now) ∧
    (∀ (p : Pillar) (code : Nat), 200 ≤ code → code < 300 →
      (checkPillarHealth p (some code) now).status = PillarStatus.online ∧
      (checkPillarHealth p (some code) now).lastSync = now) ∧
    (∀ (p : Pillar) (code : Nat), code < 200 ∨ 300 ≤ code →
      (checkPillarHealth p (some code) now).status = PillarStatus.degraded ∧
      (checkPillarHealth p (some code) now).lastSync = p.lastSync) ∧
    (∀ p : Pillar,
      (checkPillarHealth p none now).status = PillarStatus.offline ∧
      (checkPillarHealth p none now).lastSync = p.lastSync) := by
  refine ⟨by simp [checkAllPillarsHealth], ?_, ?_, ?_, ?_⟩
  · intro kp hkp
    exact List.mem_map.mpr ⟨kp, hkp, rfl⟩
  · intro p code h1 h2
    constructor <;> simp [checkPillarHealth, h1, h2]
  · intro p code h
    have hno : ¬(200 ≤ code ∧ code < 300) := by omega
    constructor <;> simp [checkPillarHealth, hno]
  · intro p
    constructor <;> simp [checkPillarHealth]

/-- Witness for C8: a previously offline pillar probed with HTTP 200
comes back online with the timestamp refreshed; a previously online
pillar probed with HTTP 500 degrades; a probe that times out sends an
online pillar offline. -/
theorem checkAllPillarsHealth_spec_witness :
    ((200 : Nat) ≤ 200 ∧ (200 : Nat) < 300 ∧
      (checkPillarHealth daoOffline (some 200) 7).status = PillarStatus.online ∧
      (checkPillarHealth daoOffline (some 200) 7).lastSync = 7) ∧
    (((500 : Nat) < 200 ∨ (300 : Nat) ≤ 500) ∧
      (checkPillarHealth hubOnline (some 500) 7).status = PillarStatus.degraded) ∧
    (checkPillarHealth hubOnline none 7).status = PillarStatus.offline := by
  have h := checkAllPillarsHealth_spec demoPillars (fun _ => none) 7
  refine ⟨⟨by decide, by decide, ?_, ?_⟩, ⟨by decide, ?_⟩, ?_⟩
  · exact (h.2.2.1 daoOffline 200 (by decide) (by decide)).1
  · exact (h.2.2.1 daoOffline 200 (by decide) (by decide)).2
  · exact (h.2.2.2.1 hubOnline 500 (Or.inr (by decide))).1
  · exact (h.2.2.2.2 hubOnline).1

/-- Length of the retention step: a trimmed buffer never exceeds the cap
once the pre-trim buffer is within one of it. -/
theorem capLast_length (cap : Nat) (l : List α) :
    (capLast cap l).length = if l.length > cap then cap else l.length := by
  unfold capLast
  by_cases h : l.length > cap
  · simp [h, List.length_drop]
    omega
  · simp [h]

/-- A buffer already within the cap is left untouched by the trim. -/
theorem capLast_of_le (cap : Nat) (l : List α) (h : l.length ≤ cap) :
    capLast cap l = l := by
  unfold capLast
  rw [if_neg (by omega)]

/-- Appending one element to a buffer exactly at the cap evicts the
oldest entry. -/
theorem capLast_append_of_length_eq (cap : Nat) (hc : 0 < cap) (d : List α) (a : α)
    (hd : d.length = cap) : capLast cap (d ++ [a]) = d.drop 1 ++ [a] := by
  unfold capLast
  have hlen : (d ++ [a]).length = cap + 1 := by simp [hd]
  rw [hlen, if_pos (by omega)]
  have h1 : cap + 1 - cap = 1 := by omega
  rw [h1, List.drop_append_of_le_length (by omega)]

/-- Folding the append-then-trim step over any insertion sequence retains
exactly the most recent `cap` insertions (all of them while still under
the cap). -/
theorem foldl_capLast (cap : Nat) (hc : 0 < cap) (l : List α) :
    l.foldl (fun b a => capLast cap (b ++ [a])) [] = l.drop (l.length - cap) := by
  induction l using List.reverseRecOn with
  | nil => simp
  | append_singleton l a ih =>
      rw [List.foldl_append, ih]
      simp only [List.foldl_cons, List.foldl_nil]
      have hlen3 : (l ++ [a]).length = l.length + 1 := by simp
      by_cases h : l.length < cap
      · have h0 : l.length - cap = 0 := by omega
        rw [h0, List.drop_zero, capLast_of_le cap _ (by simp; omega), hlen3]
        have h1 : l.length + 1 - cap = 0 := by omega
        rw [h1, List.drop_zero]
      · push_neg at h
        have hd : (l.drop (l.length - cap)).length = cap := by
          rw [List.length_drop]; omega
        rw [capLast_append_of_length_eq cap hc _ a hd, List.drop_drop, hlen3,
            List.drop_append_of_le_length (by omega)]
        have h2 : l.length - cap + 1 = l.length + 1 - cap := by omega
        rw [h2]

/-- Helper: `sendToPillar` as a single conditional equation. -/
theorem sendToPillar_eq (pillars : List (String × Pillar))
    (buf : List CrossPillarMessage) (target : String) (kind : MessageKind)
    (payload : String) (now : Nat) :
    sendToPillar pillars buf target kind payload now
      = if targetOnline pillars target
        then capLast 50 (buf ++ [mkCrossPillarMessage target kind payload now])
        else buf := by
  unfold sendToPillar targetOnline
  cases h : pillars.lookup target with
  | none => simp
  | some p => cases hs : p.status <;> simp

/-- Helper: retention for an append-then-trim fold whose elements pass
through a constructor `g`. -/
theorem foldl_capLast_map (cap : Nat) (hc : 0 < cap) (g : β → α) (l : List β) :
    l.foldl (fun b x => capLast cap (b ++ [g x])) [] = (l.map g).drop (l.length - cap) := by
  have h := foldl_capLast cap hc (l.map g)
  rw [List.foldl_map] at h
  simpa using h

/-- C4 (counterexample): the `repositoryActivities` array is never
trimmed — after 25 insertions (lines 183-189 push without any cap) it
holds 25 entries, not at most 20 as claimed.  Only the read accessor
slices the last 20. -/
theorem repositoryActivities_exceed_cap :
    20 < ((List.range 25).foldl (fun b i => recordRepositoryActivity b (repoAct i)) []).length ∧
    ((List.range 25).foldl (fun b i => recordRepositoryActivity b (repoAct i)) []).length = 25 := by
  decide

/-- C4 (amended): the cross-pillar message buffer is capped at 50 and the
system-activity buffer at 100, in both cases evicting oldest-first so that
after any insertion sequence the retained buffer is exactly the most
recent (at most cap) insertions; the repository-activity store itself
grows by one on every insertion without bound, and only the accessor
`getRepositoryActivities` is limited to the last 20 entries. -/
theorem buffer_retention_amended :
    (∀ (pillars : List (String × Pillar)) (buf : List CrossPillarMessage)
        (target : String) (kind : MessageKind) (payload : String) (now : Nat),
      buf.length ≤ 50 →
      (sendToPillar pillars buf target kind payload now).length ≤ 50) ∧
    (∀ (buf : List SystemActivity) (a : SystemActivity),
      buf.length ≤ 100 → (generateSystemActivity buf a).length ≤ 100) ∧
    (∀ acts : List SystemActivity,
      acts.foldl generateSystemActivity [] = acts.drop (acts.length - 100)) ∧
    (∀ (payloads : List (MessageKind × String × Nat))
        (pillars : List (String × Pillar)) (target : String),
      targetOnline pillars target = true →
      payloads.foldl (fun b x => sendToPillar pillars b target x.1 x.2.1 x.2.2) []
        = (payloads.map (fun x => mkCrossPillarMessage target x.1 x.2.1 x.2.2)).drop
            (payloads.length - 50)) ∧
    (∀ (buf : List RepositoryActivity) (a : RepositoryActivity),
      (recordRepositoryActivity buf a).length = buf.length + 1) ∧
    (∀ buf : List RepositoryActivity, (getRepositoryActivities buf).length ≤ 20) := by
  refine ⟨?_, ?_, ?_, ?_, ?_, ?_⟩
  · intro pillars buf target kind payload now hbuf
    rw [sendToPillar_eq]
    by_cases ht : targetOnline pillars target
    · rw [if_pos ht, capLast_length]
      have hlen : (buf ++ [mkCrossPillarMessage target kind payload now]).length
          = buf.length + 1 := by simp
      rw [hlen]
      split <;> omega
    · rw [if_neg ht]; exact hbuf
  · intro buf a hbuf
    unfold generateSystemActivity
    rw [capLast_length]
    have hlen : (buf ++ [a]).length = buf.length + 1 := by simp
    rw [hlen]
    split <;> omega
  · intro acts
    exact foldl_capLast 100 (by omega) acts
  · intro payloads pillars target ht
    have hstep : ∀ (b : List CrossPillarMessage) (x : MessageKind × String × Nat),
        sendToPillar pillars b target x.1 x.2.1 x.2.2
          = capLast 50 (b ++ [mkCrossPillarMessage target x.1 x.2.1 x.2.2]) := by
      intro b x
      rw [sendToPillar_eq, if_pos ht]
    simp only [hstep]
    exact foldl_capLast_map 50 (by omega) _ payloads
  · intro buf a
    simp [recordRepositoryActivity]
  · intro buf
    rw [getRepositoryActivities, List.length_drop]
    omega

/-- Witness for the amended C4 statement: concrete buffers within the
caps stay within them, and 55 messages sent to an online pillar retain
exactly the last 50. -/
theorem buffer_retention_amended_witness :
    ([] : List CrossPillarMessage).length ≤ 50 ∧
    (sendToPillar demoPillars [] ("hub") MessageKind.discussion ("p") 0).length ≤ 50 ∧
    ([] : List SystemActivity).length ≤ 100 ∧
    (generateSystemActivity [] demoActivity).length ≤ 100 ∧
    targetOnline demoPillars ("hub") = true ∧
    ((List.range 55).map (fun i => (MessageKind.discussion, "p", i))).foldl
        (fun b x => sendToPillar demoPillars b ("hub") x.1 x.2.1 x.2.2) []
      = (((List.range 55).map (fun i => (MessageKind.discussion, "p", i))).map
          (fun x => mkCrossPillarMessage ("hub") x.1 x.2.1 x.2.2)).drop 5 := by
  refine ⟨by decide,
    buffer_retention_amended.1 demoPillars [] ("hub") MessageKind.discussion ("p") 0 (by decide),
    by decide,
    buffer_retention_amended.2.1 [] demoActivity (by decide),
    by decide, ?_⟩
  have h := buffer_retention_amended.2.2.2.1
    ((List.range 55).map (fun i => (MessageKind.discussion, "p", i)))
    demoPillars ("hub") (by decide)
  simpa using h

/-- Helper: the service record built from an opportunity carries its id. -/
theorem serviceDataFor_opportunityId (o : Opportunity) :
    (serviceDataFor o).opportunityId = o.id := rfl

/-- Helper: converting never changes an opportunity's id. -/
theorem convertIfDetected_id (o : Opportunity) : (convertIfDetected o).id = o.id := by
  unfold convertIfDetected
  split <;> rfl

/-- Helper: a converted record is never `'detected'` again. -/
theorem convertIfDetected_status (o : Opportunity) :
    ((convertIfDetected o).status == "detected") = false := by
  unfold convertIfDetected
  cases h : o.status == "detected" with
  | false => simp [h]
  | true => simp [h]

/-- Helper: the status update of one conversion leaves every record with
a different id untouched. -/
theorem map_flip_eq_self (o : Opportunity) (l : List Opportunity)
    (h : ∀ p ∈ l, p.id ≠ o.id) :
    l.map (fun p => if p.id == o.id then { o with status := "converted" } else p) = l := by
  induction l with
  | nil => rfl
  | cons a t ih =>
      have ha : (a.id == o.id) = false :=
        beq_eq_false_iff_ne.mpr (h a (List.mem_cons_self a t))
      simp only [List.map_cons, ha, Bool.false_eq_true, if_false]
      rw [ih (fun p hp => h p (List.mem_cons_of_mem a hp))]

/-- Helper: one loop iteration on a detected opportunity whose two
storage writes succeed. -/
theorem convertLoop_cons_detected (fx : StorageFaults) (o : Opportunity)
    (rest : List Opportunity) (st : Storage)
    (hdet : (o.status == "detected") = true)
    (hc : fx.createServiceFails o.id = false)
    (hu : fx.updateOpportunityFails o.id = false) :
    convertLoop fx (o :: rest) st
      = convertLoop fx rest
          { opportunities := st.opportunities.map
              (fun p => if p.id == o.id then { o with status := "converted" } else p),
            services := st.services ++ [serviceDataFor o] } := by
  simp [convertLoop, hdet, createService, updateOpportunityConverted,
    serviceDataFor_opportunityId, hc, hu]

/-- Helper: one loop iteration on an opportunity that is not detected. -/
theorem convertLoop_cons_not_detected (fx : StorageFaults) (o : Opportunity)
    (rest : List Opportunity) (st : Storage)
    (hdet : (o.status == "detected") = false) :
    convertLoop fx (o :: rest) st = convertLoop fx rest st := by
  simp [convertLoop, hdet]

/-- Helper: a failing `createService` aborts the loop at that
opportunity, leaving storage as it was. -/
theorem convertLoop_cons_create_fails (fx : StorageFaults) (o : Opportunity)
    (rest : List Opportunity) (st : Storage)
    (hdet : (o.status == "detected") = true)
    (hc : fx.createServiceFails o.id = true) :
    convertLoop fx (o :: rest) st = (st, some ("createService failed")) := by
  simp [convertLoop, hdet, createService, serviceDataFor_opportunityId, hc]

/-- Helper: a failing `updateOpportunity` after a successful
`createService` aborts the loop at that opportunity with the service
already appended and the status not flipped — the partial state the
code leaves behind. -/
theorem convertLoop_cons_update_fails (fx : StorageFaults) (o : Opportunity)
    (rest : List Opportunity) (st : Storage)
    (hdet : (o.status == "detected") = true)
    (hc : fx.createServiceFails o.id = false)
    (hu : fx.updateOpportunityFails o.id = true) :
    convertLoop fx (o :: rest) st
      = ({ st with services := st.services ++ [serviceDataFor o] },
         some ("updateOpportunity failed")) := by
  simp [convertLoop, hdet, createService, updateOpportunityConverted,
    serviceDataFor_opportunityId, hc, hu]

/-- Helper: with no detected opportunity in the snapshot the loop is the
identity on storage. -/
theorem convertLoop_no_detected (fx : StorageFaults) (l : List Opportunity) :
    ∀ st : Storage, (∀ o ∈ l, (o.status == "detected") = false) →
      convertLoop fx l st = (st, none) := by
  induction l with
  | nil => intro st _; rfl
  | cons o rest ih =>
      intro st h
      rw [convertLoop_cons_not_detected fx o rest st (h o (List.mem_cons_self o rest))]
      exact ih st (fun p hp => h p (List.mem_cons_of_mem o hp))

/-- Helper: processing a concatenated snapshot is processing the first
part and continuing with the second, provided the first part does not
abort. -/
theorem convertLoop_append (fx : StorageFaults) (l1 : List Opportunity) :
    ∀ (l2 : List Opportunity) (st : Storage),
      (convertLoop fx l1 st).2 = none →
      convertLoop fx (l1 ++ l2) st = convertLoop fx l2 (convertLoop fx l1 st).1 := by
  induction l1 with
  | nil => intro l2 st _; simp [convertLoop]
  | cons o rest ih =>
      intro l2 st h
      rw [List.cons_append]
      cases hdet : o.status == "detected" with
      | false =>
          rw [convertLoop_cons_not_detected fx o rest st hdet] at h
          rw [convertLoop_cons_not_detected fx o (rest ++ l2) st hdet,
              convertLoop_cons_not_detected fx o rest st hdet]
          exact ih l2 st h
      | true =>
          cases hc : createService fx st (serviceDataFor o) with
          | none =>
              have hx : convertLoop fx (o :: rest) st = (st, some ("createService failed")) := by
                simp [convertLoop, hdet, hc]
              rw [hx] at h
              simp at h
          | some st1 =>
              cases hu : updateOpportunityConverted fx st1 o with
              | none =>
                  have hx : convertLoop fx (o :: rest) st
                      = (st1, some ("updateOpportunity failed")) := by
                    simp [convertLoop, hdet, hc, hu]
                  rw [hx] at h
                  simp at h
              | some st2 =>
                  have hx : convertLoop fx (o :: rest) st = convertLoop fx rest st2 := by
                    simp [convertLoop, hdet, hc, hu]
                  have hx2 : convertLoop fx (o :: (rest ++ l2)) st
                      = convertLoop fx (rest ++ l2) st2 := by
                    simp [convertLoop, hdet, hc, hu]
                  rw [hx] at h
                  rw [hx2, ih l2 st2 h, hx]

/-- Helper (main loop invariant): with pairwise-distinct opportunity ids
and no storage faults on the processed part, the loop converts exactly
the detected items of its snapshot — appending one service per detected
item in order and flipping exactly those statuses — and does not abort.
`pre` is the already-processed prefix of the storage list, `tail` the
part some caller will process later. -/
theorem convertLoop_ok (fx : StorageFaults) (tail : List Opportunity)
    (l : List Opportunity) :
    ∀ (pre : List Opportunity) (services0 : List Service),
      (pre ++ (l ++ tail)).Pairwise (fun a b => a.id ≠ b.id) →
      (∀ o ∈ l, fx.createServiceFails o.id = false ∧ fx.updateOpportunityFails o.id = false) →
      convertLoop fx l
          { opportunities := pre.map convertIfDetected ++ (l ++ tail),
            services := services0 }
        = ({ opportunities := (pre ++ l).map convertIfDetected ++ tail,
             services := services0
               ++ (l.filter (fun o => o.status == "detected")).map serviceDataFor },
           none) := by
  induction l with
  | nil =>
      intro pre services0 _ _
      simp [convertLoop]
  | cons o rest ih =>
      intro pre services0 hpw hnf
      have hno := hnf o (List.mem_cons_self o rest)
      have hnf' : ∀ p ∈ rest,
          fx.createServiceFails p.id = false ∧ fx.updateOpportunityFails p.id = false :=
        fun p hp => hnf p (List.mem_cons_of_mem o hp)
      have hpw0 : (pre ++ (o :: (rest ++ tail))).Pairwise (fun a b => a.id ≠ b.id) := by
        simpa using hpw
      obtain ⟨hp1, hp2, hp3⟩ := List.pairwise_append.mp hpw0
      obtain ⟨ho, hp4⟩ := List.pairwise_cons.mp hp2
      have hpre_o : ∀ p ∈ pre, p.id ≠ o.id :=
        fun p hp => hp3 p hp o (List.mem_cons_self _ _)
      have hrt_o : ∀ p ∈ rest ++ tail, p.id ≠ o.id :=
        fun p hp => (ho p hp).symm
      have hpw' : ((pre ++ [o]) ++ (rest ++ tail)).Pairwise (fun a b => a.id ≠ b.id) := by
        simpa using hpw0
      cases hdet : o.status == "detected" with
      | true =>
          rw [convertLoop_cons_detected fx o rest _ hdet hno.1 hno.2]
          have hpre_o' : ∀ p ∈ pre.map convertIfDetected, p.id ≠ o.id := by
            intro p hp
            obtain ⟨q, hq, rfl⟩ := List.mem_map.mp hp
            rw [convertIfDetected_id]
            exact hpre_o q hq
          have hmap : (pre.map convertIfDetected ++ ((o :: rest) ++ tail)).map
                (fun p => if p.id == o.id then { o with status := "converted" } else p)
              = (pre ++ [o]).map convertIfDetected ++ (rest ++ tail) := by
            rw [List.map_append, map_flip_eq_self o _ hpre_o']
            simp only [List.cons_append, List.map_cons]
            rw [map_flip_eq_self o _ hrt_o]
            simp [convertIfDetected, hdet]
          simp only [hmap]
          rw [ih (pre ++ [o]) (services0 ++ [serviceDataFor o]) hpw' hnf']
          simp [hdet, List.filter_cons]
      | false =>
          rw [convertLoop_cons_not_detected fx o rest _ hdet]
          have hconv : convertIfDetected o = o := by
            simp [convertIfDetected, hdet]
          have hmap2 : pre.map convertIfDetected ++ ((o :: rest) ++ tail)
              = (pre ++ [o]).map convertIfDetected ++ (rest ++ tail) := by
            simp [hconv]
          rw [hmap2, ih (pre ++ [o]) services0 hpw' hnf']
          simp [hdet, List.filter_cons]

/-- C6: with fault-free storage and pairwise-distinct opportunity ids,
one converter invocation creates exactly one service per detected
opportunity (in snapshot order) and flips exactly those statuses to
`'converted'`; a second invocation on the resulting storage — no new
opportunities in between — changes nothing: no further service, no
further status transition. -/
theorem autoConvert_exactly_once (st : Storage)
    (hids : (st.opportunities.map Opportunity.id).Nodup) :
    (autoConvertOpportunitiesToServices noFaults st).services
      = st.services
        ++ (st.opportunities.filter (fun o => o.status == "detected")).map serviceDataFor ∧
    (autoConvertOpportunitiesToServices noFaults st).opportunities
      = st.opportunities.map convertIfDetected ∧
    autoConvertOpportunitiesToServices noFaults (autoConvertOpportunitiesToServices noFaults st)
      = autoConvertOpportunitiesToServices noFaults st := by
  obtain ⟨ops, svs⟩ := st
  have hpw : ops.Pairwise (fun a b => a.id ≠ b.id) := List.pairwise_map.mp hids
  have h := convertLoop_ok noFaults [] ops [] svs (by simpa using hpw)
    (fun o _ => ⟨rfl, rfl⟩)
  simp only [List.map_nil, List.nil_append, List.append_nil] at h
  have h1 : autoConvertOpportunitiesToServices noFaults ⟨ops, svs⟩
      = { opportunities := ops.map convertIfDetected,
          services := svs
            ++ (ops.filter (fun o => o.status == "detected")).map serviceDataFor } := by
    unfold autoConvertOpportunitiesToServices
    rw [h]
  refine ⟨by rw [h1], by rw [h1], ?_⟩
  rw [h1]
  have hnd : ∀ p ∈ ops.map convertIfDetected, (p.status == "detected") = false := by
    intro p hp
    obtain ⟨q, _, rfl⟩ := List.mem_map.mp hp
    exact convertIfDetected_status q
  unfold autoConvertOpportunitiesToServices
  rw [convertLoop_no_detected noFaults _ _ hnd]

set_option maxRecDepth 4000 in
/-- Witness for C6: storage with one detected and one already-converted
opportunity — one conversion creates exactly one service (carrying the
detected opportunity's id) and flips the one detected status; running
the converter again is the identity. -/
theorem autoConvert_exactly_once_witness :
    (storageW.opportunities.map Opportunity.id).Nodup ∧
    (autoConvertOpportunitiesToServices noFaults storageW).services
      = storageW.services
        ++ (storageW.opportunities.filter
            (fun o => o.status == "detected")).map serviceDataFor ∧
    (autoConvertOpportunitiesToServices noFaults storageW).services.map
        Service.opportunityId = [1] ∧
    (autoConvertOpportunitiesToServices noFaults storageW).opportunities
      = [{ oppDetectedW with status := "converted" }, oppConvertedW] ∧
    autoConvertOpportunitiesToServices noFaults
        (autoConvertOpportunitiesToServices noFaults storageW)
      = autoConvertOpportunitiesToServices noFaults storageW := by
  have h := autoConvert_exactly_once storageW (by decide)
  refine ⟨by decide, h.1, ?_, ?_, h.2.2⟩
  · rw [h.1]
    decide
  · rw [h.2.1]
    decide

/-- Helper: a fault-free converter pass appends exactly one service per
detected opportunity of the snapshot (derived from the loop invariant
for use on post-failure storages). -/
theorem autoConvert_noFaults_services (st : Storage)
    (hids : (st.opportunities.map Opportunity.id).Nodup) :
    (autoConvertOpportunitiesToServices noFaults st).services
      = st.services
        ++ (st.opportunities.filter (fun o => o.status == "detected")).map serviceDataFor := by
  obtain ⟨ops, svs⟩ := st
  have hpw : ops.Pairwise (fun a b => a.id ≠ b.id) := List.pairwise_map.mp hids
  have h := convertLoop_ok noFaults [] ops [] svs (by simpa using hpw)
    (fun o _ => ⟨rfl, rfl⟩)
  simp only [List.map_nil, List.nil_append, List.append_nil] at h
  unfold autoConvertOpportunitiesToServices
  rw [h]

/-- C7 (counterexample): both halves of the claim fail on the code.
First, with two detected opportunities and `createService` failing for
the first, the catch that wraps the whole loop aborts the pass at once:
no service is created and the second detected opportunity is not
converted in the same pass, contradicting "every other detected
Opportunity in the same pass is still converted".  Second, with
`createService` succeeding and `updateOpportunity` failing, the
conversion is not atomic: the service for opportunity 2 is already
persisted (one service record carrying its id) while the opportunity
itself is still `'detected'` — partial state — and a fault-free retry
converts it again, leaving two service records for the same
opportunity, contradicting "either both the service-create and the
status-update succeed or neither counts as completed". -/
theorem persistence_failure_aborts_whole_pass :
    (autoConvertOpportunitiesToServices failCreateAlpha
        { opportunities := [oppAlpha, oppBeta], services := [] }).services = [] ∧
    (autoConvertOpportunitiesToServices failCreateAlpha
        { opportunities := [oppAlpha, oppBeta], services := [] }).opportunities
      = [oppAlpha, oppBeta] ∧
    oppBeta.status = "detected" ∧
    (autoConvertOpportunitiesToServices failUpdateBeta
        { opportunities := [oppBeta], services := [] }).services.map
        Service.opportunityId = [2] ∧
    (autoConvertOpportunitiesToServices failUpdateBeta
        { opportunities := [oppBeta], services := [] }).opportunities
      = [oppBeta] ∧
    ((autoConvertOpportunitiesToServices noFaults
        (autoConvertOpportunitiesToServices failUpdateBeta
          { opportunities := [oppBeta], services := [] })).services.filter
        (fun s => s.opportunityId == 2)).length = 2 := by
  decide

/-- C7 (amended): when a storage write fails while converting one
detected opportunity, that opportunity keeps status `'detected'` and is
retried on the next invocation, and the failure aborts the remainder of
the pass — detected opportunities before the failing one are fully
converted with their services persisted, while the failing one and
everything after it are left untouched until the next invocation.  The
two failure modes are not symmetric, and the conversion is not atomic:
if `createService` fails no partial state remains for the item (no
service is recorded — the status is indeed never flipped before the
service write); but if `updateOpportunity` fails after `createService`
succeeded, the service is already durably persisted while the status
stays `'detected'`, and the next fault-free pass converts the item
again, appending a second service record for the same opportunity (its
`serviceDataFor` record then appears twice). -/
theorem storage_write_failure_nonatomic
    (fx : StorageFaults) (pre post : List Opportunity) (bad : Opportunity)
    (services0 : List Service)
    (hids : ((pre ++ bad :: post).map Opportunity.id).Nodup)
    (hpre : ∀ o ∈ pre,
      fx.createServiceFails o.id = false ∧ fx.updateOpportunityFails o.id = false)
    (hbadS : (bad.status == "detected") = true) :
    (fx.createServiceFails bad.id = true →
      autoConvertOpportunitiesToServices fx
          { opportunities := pre ++ bad :: post, services := services0 }
        = { opportunities := pre.map convertIfDetected ++ bad :: post,
            services := services0
              ++ (pre.filter (fun o => o.status == "detected")).map serviceDataFor }) ∧
    (fx.createServiceFails bad.id = false → fx.updateOpportunityFails bad.id = true →
      autoConvertOpportunitiesToServices fx
          { opportunities := pre ++ bad :: post, services := services0 }
        = { opportunities := pre.map convertIfDetected ++ bad :: post,
            services := services0
              ++ (pre.filter (fun o => o.status == "detected")).map serviceDataFor
              ++ [serviceDataFor bad] }) ∧
    (autoConvertOpportunitiesToServices noFaults
        { opportunities := pre.map convertIfDetected ++ bad :: post,
          services := services0
            ++ (pre.filter (fun o => o.status == "detected")).map serviceDataFor
            ++ [serviceDataFor bad] }).services
      = services0
          ++ (pre.filter (fun o => o.status == "detected")).map serviceDataFor
          ++ [serviceDataFor bad]
          ++ serviceDataFor bad
              :: (post.filter (fun o => o.status == "detected")).map serviceDataFor := by
  have hpw : (pre ++ bad :: post).Pairwise (fun a b => a.id ≠ b.id) :=
    List.pairwise_map.mp hids
  have hok := convertLoop_ok fx (bad :: post) pre [] services0 (by simpa using hpw) hpre
  simp only [List.map_nil, List.nil_append] at hok
  have happ := convertLoop_append fx pre (bad :: post)
      { opportunities := pre ++ bad :: post, services := services0 } (by rw [hok])
  refine ⟨?_, ?_, ?_⟩
  · intro hbadF
    unfold autoConvertOpportunitiesToServices
    rw [happ, hok, convertLoop_cons_create_fails fx bad post _ hbadS hbadF]
  · intro hbadC hbadU
    unfold autoConvertOpportunitiesToServices
    rw [happ, hok, convertLoop_cons_update_fails fx bad post _ hbadS hbadC hbadU]
  · have hmapids : (pre.map convertIfDetected ++ bad :: post).map Opportunity.id
        = (pre ++ bad :: post).map Opportunity.id := by
      simp only [List.map_append, List.map_map]
      congr 1
      exact List.map_congr_left (fun o _ => convertIfDetected_id o)
    have hids2 : ((pre.map convertIfDetected ++ bad :: post).map Opportunity.id).Nodup := by
      rw [hmapids]
      exact hids
    have hgen := autoConvert_noFaults_services
      { opportunities := pre.map convertIfDetected ++ bad :: post,
        services := services0
          ++ (pre.filter (fun o => o.status == "detected")).map serviceDataFor
          ++ [serviceDataFor bad] } hids2
    rw [hgen]
    have hfil : (pre.map convertIfDetected).filter (fun o => o.status == "detected")
        = [] := by
      rw [List.filter_eq_nil_iff]
      intro o ho
      obtain ⟨q, _, rfl⟩ := List.mem_map.mp ho
      simp [convertIfDetected_status q]
    simp [List.filter_append, hfil, List.filter_cons, hbadS]

set_option maxRecDepth 4000 in
/-- Witness for the amended C7 statement at concrete inputs: with
`createService` failing on the middle of three detected opportunities
the first converts and the rest stay untouched; with `updateOpportunity`
failing instead, the middle opportunity's service is persisted although
its status stays detected, and the follow-up fault-free pass appends a
second service record for it. -/
theorem storage_write_failure_nonatomic_witness :
    (([oppAlpha] ++ oppBeta :: [oppGamma]).map Opportunity.id).Nodup ∧
    (oppBeta.status == "detected") = true ∧
    failCreateBeta.createServiceFails oppBeta.id = true ∧
    (autoConvertOpportunitiesToServices failCreateBeta
        { opportunities := [oppAlpha] ++ oppBeta :: [oppGamma], services := [] })
      = { opportunities := [oppAlpha].map convertIfDetected ++ oppBeta :: [oppGamma],
          services := []
            ++ ([oppAlpha].filter (fun o => o.status == "detected")).map serviceDataFor } ∧
    failUpdateBeta.createServiceFails oppBeta.id = false ∧
    failUpdateBeta.updateOpportunityFails oppBeta.id = true ∧
    (autoConvertOpportunitiesToServices failUpdateBeta
        { opportunities := [oppAlpha] ++ oppBeta :: [oppGamma], services := [] })
      = { opportunities := [oppAlpha].map convertIfDetected ++ oppBeta :: [oppGamma],
          services := []
            ++ ([oppAlpha].filter (fun o => o.status == "detected")).map serviceDataFor
            ++ [serviceDataFor oppBeta] } ∧
    (autoConvertOpportunitiesToServices noFaults
        { opportunities := [oppAlpha].map convertIfDetected ++ oppBeta :: [oppGamma],
          services := []
            ++ ([oppAlpha].filter (fun o => o.status == "detected")).map serviceDataFor
            ++ [serviceDataFor oppBeta] }).services
      = []
          ++ ([oppAlpha].filter (fun o => o.status == "detected")).map serviceDataFor
          ++ [serviceDataFor oppBeta]
          ++ serviceDataFor oppBeta
              :: ([oppGamma].filter (fun o => o.status == "detected")).map serviceDataFor := by
  have hA := storage_write_failure_nonatomic failCreateBeta [oppAlpha] [oppGamma] oppBeta []
    (by decide) (by decide) (by decide)
  have hB := storage_write_failure_nonatomic failUpdateBeta [oppAlpha] [oppGamma] oppBeta []
    (by decide) (by decide) (by decide)
  exact ⟨by decide, by decide, by decide, hA.1 (by decide), by decide, by decide,
    hB.2.1 (by decide) (by decide), hB.2.2⟩

end XMRT
